import Mathlib

/-!
Shallow embedding of the classification-and-aggregation engine of
`ai_forex_dashboard.py` (the "AI Macro Desk" dashboard).

Conventions of the embedding:
* Python float arithmetic is modelled by exact rational arithmetic (`ℚ`)
  everywhere in the aggregation engine; the exponential recency decay, which
  is genuinely transcendental, is modelled over `ℝ` with `Real.exp`.
* Python strings are modelled by `String`; `a in b` (substring test) is
  modelled by `containsSub` on the underlying character lists, and
  `str.lower()` by `lowerStr` (ASCII lowering via `Char.toLower`).
* Python dicts with a fixed literal key set are modelled by association
  lists (insertion order preserved, as in Python 3.7+) or by `match`-style
  getters with the same default behaviour as `dict.get`.
* Timestamps are modelled as real-valued instants measured in hours, so the
  `(now - published).total_seconds() / 3600.0` conversion is already folded
  into the subtraction.
* The in-place mutation of the `news_items` dicts is modelled by structure
  update on a single `AnnItem` record carrying every field the items
  acquire across the pipeline stages.
-/

namespace ForexDash

/-- Models Python `needle` being a prefix of `haystack` (character lists). -/
def startsWithL : List Char → List Char → Bool
  | [], _ => true
  | _ :: _, [] => false
  | a :: as, b :: bs => a == b && startsWithL as bs

/-- Models the Python substring test `needle in haystack` on character lists. -/
def containsSub (needle : List Char) : List Char → Bool
  | [] => startsWithL needle []
  | t :: rest => startsWithL needle (t :: rest) || containsSub needle rest

/-- Number of starting positions at which `needle` occurs inside `haystack`
(used only to formalise the claim-side "per occurrence" counting). -/
def count_occurrences (needle : List Char) : List Char → Nat
  | [] => 0
  | t :: rest => (if startsWithL needle (t :: rest) then 1 else 0) + count_occurrences needle rest

/-- Models Python `str.lower()` (ASCII case folding). -/
def lowerStr (s : String) : String := ⟨s.data.map Char.toLower⟩

/-- `PAIR_KEYWORDS` from the source (insertion order preserved). -/
def PAIR_KEYWORDS : List (String × List String) :=
  [("EUR/USD", ["eurusd", "euro", "ecb", "eurozone", "european central bank", "eurostat", "bundesbank", "eur"]),
   ("GBP/USD", ["gbpusd", "pound", "sterling", "bank of england", "boe", "uk", "britain", "gbp"]),
   ("USD/JPY", ["usdjpy", "yen", "boj", "bank of japan", "tokyo", "japan", "jpy"]),
   ("XAU/USD", ["gold", "xau", "spot gold", "precious metal", "gold price", "xauusd"])]

/-- `PAIR_LABELS = list(PAIR_KEYWORDS.keys())`. -/
def PAIR_LABELS : List String := PAIR_KEYWORDS.map Prod.fst

/-- `PAIR_BASE_QUOTE` from the source. -/
def PAIR_BASE_QUOTE : List (String × String × String) :=
  [("EUR/USD", "EUR", "USD"), ("GBP/USD", "GBP", "USD"),
   ("USD/JPY", "USD", "JPY"), ("XAU/USD", "XAU", "USD")]

/-- `MACRO_KEYWORDS` from the source (keyword → affected currency). -/
def MACRO_KEYWORDS : List (String × String) :=
  [("cpi", "USD"), ("consumer price", "USD"), ("inflation", "USD"), ("nfp", "USD"),
   ("nonfarm", "USD"), ("unemployment", "USD"), ("jobs report", "USD"), ("gdp", "USD"),
   ("fed", "USD"), ("fomc", "USD"), ("interest rate", "USD"), ("rate decision", "USD"),
   ("ecb", "EUR"), ("euro area", "EUR"), ("bank of england", "GBP"), ("boj", "JPY"),
   ("japan", "JPY"), ("uk", "GBP"), ("britain", "GBP"), ("pound", "GBP")]

/-- `POSITIVE_SIGNS` from the source. -/
def POSITIVE_SIGNS : List String :=
  ["beats", "better than expected", "strong", "stronger", "tops expectations",
   "higher than expected", "surprise up", "revised up", "rise", "risen", "upbeat",
   "positive", "hike", "raises", "raised", "rate hike", "increases"]

/-- `NEGATIVE_SIGNS` from the source. -/
def NEGATIVE_SIGNS : List String :=
  ["misses", "below expectations", "weaker", "lower than expected", "disappoint",
   "falls", "fell", "down", "cut", "cuts", "cut rates", "eases", "negative", "revised down"]

/-- A detected macro event: `{"event": kw, "currency": cur, "signal": signal}`. -/
structure MacroEvent where
  event : String
  currency : String
  signal : ℚ
deriving DecidableEq, Repr, Inhabited

/-- The two phrase-scanning loops of `detect_macro_events_in_text`:
`signal` starts at `0.0`, gains `1.0` for every positive phrase found in the
(already lowered) text and loses `1.0` for every negative phrase found. -/
def raw_signal_tally (t : List Char) : ℚ :=
  let s₁ := POSITIVE_SIGNS.foldl (fun s pw => if containsSub pw.data t then s + 1 else s) 0
  NEGATIVE_SIGNS.foldl (fun s nw => if containsSub nw.data t then s - 1 else s) s₁

/-- The clamping branch of `detect_macro_events_in_text`:
positive sums clamp to `min 1`, negative sums clamp to `max (-1)`, and an
exactly-zero sum becomes the default weak-positive `0.25`. -/
def clamp_signal (s : ℚ) : ℚ :=
  if 0 < s then min 1 s
  else if s < 0 then max (-1) s
  else 0.25

/-- `detect_macro_events_in_text(text)` from the source: lower the text, and
for every configured macro keyword occurring in it emit one `MacroEvent`
whose signal is the clamped phrase tally of the same text. -/
def detect_macro_events_in_text (text : String) : List MacroEvent :=
  let t := (lowerStr text).data
  MACRO_KEYWORDS.filterMap fun p =>
    if containsSub p.1.data t then
      some { event := p.1, currency := p.2, signal := clamp_signal (raw_signal_tally t) }
    else
      none

/-- One `{label, score}` result from the external sentiment classifier. -/
structure SentResult where
  label : String
  score : ℚ
deriving DecidableEq, Repr, Inhabited

/-- `sentiment_to_numeric(label)` from the source: positive-looking labels map
to `1.0`, negative-looking labels to `0.0`, anything else to `0.5`. -/
def sentiment_to_numeric (label : String) : ℚ :=
  let lab := (lowerStr label).data
  if containsSub "positive".data lab || containsSub "pos".data lab then 1
  else if containsSub "negative".data lab || containsSub "neg".data lab then 0
  else 0.5

/-- A news item with every field it acquires across the pipeline stages
(the Python code grows one dict per item; unset keys are modelled by the
record's current field values). Timestamps are rational instants in hours. -/
structure AnnItem where
  source : String
  title : String
  summary : String
  link : String
  published : Option ℚ
  text : String
  pair : String
  macro_events : List MacroEvent
  sent_label : String
  sent_score : ℚ
  sent_value : ℚ
  weight : ℚ
deriving DecidableEq, Repr, Inhabited

/-- The body of the per-item sentiment zip loop: `n["sent_label"] = label;
n["sent_score"] = score; n["sent_value"] = sentiment_to_numeric(label)`. -/
def annotate_sentiment (n : AnnItem) (s : SentResult) : AnnItem :=
  { n with sent_label := s.label, sent_score := s.score,
           sent_value := sentiment_to_numeric s.label }

/-- The sentiment zip step, `for n, s in zip(news_items, sent_results)`:
the first `min |news_items| |sent_results|` items are annotated pairwise in
order; items beyond the result list are left untouched by the loop (in the
script those dicts simply never receive the sentiment keys). -/
def sentiment_zip_step (news_items : List AnnItem) (sent_results : List SentResult) : List AnnItem :=
  (List.zipWith annotate_sentiment news_items sent_results) ++
    news_items.drop sent_results.length

/-- `source_weights` from the settings block (a dict literal). -/
def source_weights : List (String × ℚ) :=
  [("Reuters", 1.2), ("Bloomberg Economics", 1.3), ("Investing.com", 1),
   ("CNBC", 1), ("MarketWatch", 1), ("Forex Factory", 0.9), ("Default", 1)]

/-- `source_weights.get(source, source_weights.get("Default", 1.0))`: keyed
lookup in the dict literal above, with the `"Default"` entry (value `1.0`)
as the fallback for unlisted sources. -/
def source_weights_get (source : String) : ℚ :=
  if source = "Reuters" then 1.2
  else if source = "Bloomberg Economics" then 1.3
  else if source = "Investing.com" then 1
  else if source = "CNBC" then 1
  else if source = "MarketWatch" then 1
  else if source = "Forex Factory" then 0.9
  else 1

/-- `recency_weight(published, half_life_hours)` from the source, over `ℝ`
because of the exponential: an absent timestamp yields the fixed `0.2`;
otherwise the age in hours is floored at `0` and decayed with rate
`-(1 / half_life_hours) * 0.693147`. -/
noncomputable def recency_weight (published : Option ℝ) (now half_life_hours : ℝ) : ℝ :=
  match published with
  | none => 0.2
  | some pub =>
    let age_hours : ℝ := max (now - pub) 0
    let lam : ℝ := -(1 / half_life_hours) * 0.693147
    Real.exp (lam * age_hours)

/-- The per-item weight assignment `n["weight"] = src_w * r_w` of stage 5. -/
noncomputable def item_weight (source : String) (published : Option ℝ) (now half_life_hours : ℝ) : ℝ :=
  ((source_weights_get source : ℚ) : ℝ) * recency_weight published now half_life_hours

/-- `total_w = sum(n["weight"] for n in items) or 1.0`: the Python `or`
replaces a zero (falsy) sum by `1.0`. -/
def total_w (items : List AnnItem) : ℚ :=
  let s := (items.map (fun n => n.weight)).sum
  if s = 0 then 1 else s

/-- `weighted_score = weighted_sum / total_w`. -/
def weighted_score_of (items : List AnnItem) : ℚ :=
  (items.map (fun n => n.sent_value * n.weight)).sum / total_w items

/-- Stable insertion (by strictly-greater key) used to model Python's stable
descending `sorted(..., reverse=True)`. -/
def insert_desc (key : AnnItem → ℚ) (x : AnnItem) : List AnnItem → List AnnItem
  | [] => [x]
  | y :: ys => if key y < key x then x :: y :: ys else y :: insert_desc key x ys

/-- Stable descending sort modelling
`sorted(items, key=lambda x: x.get("weight", 0.0) * x.get("sent_score", 0.0), reverse=True)`. -/
def sort_desc (key : AnnItem → ℚ) (l : List AnnItem) : List AnnItem :=
  l.foldl (fun acc x => insert_desc key x acc) []

/-- Round-half-to-even on `ℚ`, the idealisation of Python's `round`. -/
def round_half_even (x : ℚ) : ℤ :=
  let n := ⌊x⌋
  let r := x - n
  if r < 1/2 then n
  else if 1/2 < r then n + 1
  else if n % 2 = 0 then n else n + 1

/-- `round(x, d)` on `ℚ`: round-half-to-even at `d` decimal digits. -/
def roundq (d : ℕ) (x : ℚ) : ℚ := (round_half_even (x * 10 ^ d) : ℚ) / 10 ^ d

/-- `PAIR_BASE_QUOTE.get(p, (None, None))` followed by the `continue` guard:
the contribution of one macro event to pair `p`, `signal` when the event's
currency is the base, `-signal` when it is the quote, `0` otherwise. -/
def effect_on_pair (p : String) (ev : MacroEvent) : ℚ :=
  match PAIR_BASE_QUOTE.lookup p with
  | none => 0
  | some (base, quote) =>
    if ev.currency = base then ev.signal
    else if ev.currency = quote then -ev.signal
    else 0

/-- `macro_effect_sum`: `Σ_items Σ_events effect_on_pair * weight`. -/
def macro_effect_sum (p : String) (items : List AnnItem) : ℚ :=
  (items.map (fun n =>
    (n.macro_events.map (fun ev => effect_on_pair p ev * n.weight)).sum)).sum

/-- `macro_effect_norm = macro_effect_sum / (total_w or 1.0)`; `total_w` is
already nonzero by construction, so the second `or`-guard is the identity. -/
def macro_effect_norm (p : String) (items : List AnnItem) : ℚ :=
  macro_effect_sum p items / total_w items

/-- Lines 387-388 of the source: the blended score
`weighted_score + macro_influence * macro_effect_norm`, clamped into `[0,1]`
by `max(0.0, min(1.0, adjusted_score))`. -/
def adjusted_score_of (macro_influence : ℚ) (p : String) (items : List AnnItem) : ℚ :=
  let a := weighted_score_of items + macro_influence * macro_effect_norm p items
  max 0 (min 1 a)

/-- The three-way threshold on the adjusted score together with its card
colour: `>= 0.62` Bullish, `<= 0.38` Bearish, otherwise Neutral. -/
def bias_color_of (adjusted_score : ℚ) : String × String :=
  if 0.62 ≤ adjusted_score then ("Bullish", "#16C47F")
  else if adjusted_score ≤ 0.38 then ("Bearish", "#D44D5C")
  else ("Neutral", "#D4D4D4")

/-- The bias label alone. -/
def bias_of (adjusted_score : ℚ) : String := (bias_color_of adjusted_score).1

/-- One entry of the `macro_events` evidence list of an aggregate. -/
structure MacroHit where
  title : String
  event : String
  currency : String
  signal : ℚ
  weight : ℚ
  published : Option ℚ
deriving DecidableEq, Repr, Inhabited

/-- The `macro_events_list` accumulation: one `MacroHit` per (item, event)
pair whose base/quote lookup succeeds and whose `abs(signal) > 0`. -/
def macro_hits (p : String) (items : List AnnItem) : List MacroHit :=
  items.flatMap (fun n =>
    n.macro_events.filterMap (fun ev =>
      match PAIR_BASE_QUOTE.lookup p with
      | none => none
      | some _ =>
        if (0 : ℚ) < abs ev.signal then
          some { title := n.title, event := ev.event, currency := ev.currency,
                 signal := ev.signal, weight := n.weight, published := n.published }
        else none))

/-- `InstrumentAggregate`: the per-pair dict stored in `agg[p]`. -/
structure InstrumentAggregate where
  count : ℕ
  weighted_score : ℚ
  adjusted_score : ℚ
  bias : String
  color : String
  top_titles : List AnnItem
  pos : ℕ
  neu : ℕ
  neg : ℕ
  explanation : String
  macro_effect : ℚ
  macro_events : List MacroHit
deriving DecidableEq, Repr, Inhabited

/-- The neutral default stored for a pair with no matching items. -/
def neutral_default_agg : InstrumentAggregate :=
  { count := 0, weighted_score := 0.5, adjusted_score := 0.5,
    bias := "Neutral", color := "#D4D4D4", top_titles := [],
    pos := 0, neu := 0, neg := 0,
    explanation := "No recent news matched this pair.",
    macro_effect := 0, macro_events := [] }

/-- The body of the aggregation loop for one pair `p` over its matching
`items`. The summarizer collaborator is `some f` when loaded (with
`f concat = none` modelling a raised exception) and `none` when absent. -/
def aggregate_for (macro_influence : ℚ) (summarizer : Option (String → Option String))
    (p : String) (items : List AnnItem) : InstrumentAggregate :=
  if items = [] then neutral_default_agg
  else
    let sorted_items := sort_desc (fun x => x.weight * x.sent_score) items
    let concat := String.intercalate " " ((sorted_items.take 6).map (fun t => t.title))
    let explanation :=
      match summarizer with
      | some f =>
        match f concat with
        | some summary => summary
        | none => sorted_items.headI.title
      | none => sorted_items.headI.title
    let adj := adjusted_score_of macro_influence p items
    { count := items.length,
      weighted_score := roundq 3 (weighted_score_of items),
      adjusted_score := roundq 3 adj,
      bias := (bias_color_of adj).1,
      color := (bias_color_of adj).2,
      top_titles := sorted_items.take 5,
      pos := items.countP (fun n => 0.75 < n.sent_value),
      neu := items.countP (fun n => 0.4 ≤ n.sent_value && n.sent_value ≤ 0.75),
      neg := items.countP (fun n => n.sent_value < 0.4),
      explanation := explanation,
      macro_effect := roundq 4 (macro_effect_norm p items),
      macro_events := macro_hits p items }

/-- Section 6 of the source: build `agg`, one aggregate per configured pair,
from the items whose `pair` field matches. -/
def agg_all (macro_influence : ℚ) (summarizer : Option (String → Option String))
    (news_items : List AnnItem) : List (String × InstrumentAggregate) :=
  PAIR_LABELS.map (fun p =>
    (p, aggregate_for macro_influence summarizer p
          (news_items.filter (fun n => n.pair == p))))

/-- The engine cycle around the emptiness guard of lines 177-179: when no
news item was fetched the script reports the empty-result condition and calls
`st.stop()`, producing no aggregates (modelled by `none`); otherwise the
remaining stages run (modelled by the collaborator-stage function `process`,
standing for classification, sentiment and weighting) and aggregation
produces the full pair map. -/
def engine_cycle (process : List AnnItem → List AnnItem) (macro_influence : ℚ)
    (summarizer : Option (String → Option String))
    (news_items : List AnnItem) : Option (List (String × InstrumentAggregate)) :=
  if news_items.length = 0 then none
  else some (agg_all macro_influence summarizer (process news_items))

/-- A concrete annotated item, used by the witnesses below. -/
def sample_item : AnnItem :=
  { source := "Reuters", title := "ECB hikes rates as inflation beats expectations",
    summary := "", link := "", published := none,
    text := "ecb hikes rates as inflation beats expectations", pair := "EUR/USD",
    macro_events := [{ event := "ecb", currency := "EUR", signal := 1 }],
    sent_label := "positive", sent_score := 0.9, sent_value := 1, weight := 1.2 }

/-- C1: for every configured instrument pair with at least one matching item,
the adjusted score of lines 387-388 equals
`clamp(weighted_score + macro_influence * macro_effect_norm, 0, 1)` and hence
lies in `[0,1]` for every combination of sentiment values, weights and macro
signals. -/
theorem adjusted_score_clamped (macro_influence : ℚ) (p : String) (items : List AnnItem)
    (hp : p ∈ PAIR_LABELS) (hne : items ≠ []) :
    adjusted_score_of macro_influence p items =
      max 0 (min 1 (weighted_score_of items + macro_influence * macro_effect_norm p items)) ∧
    0 ≤ adjusted_score_of macro_influence p items ∧
    adjusted_score_of macro_influence p items ≤ 1 := by
  refine ⟨rfl, le_max_left _ _, ?_⟩
  exact max_le (by norm_num) (min_le_left _ _)

/-- Witness for C1 at a concrete input. -/
theorem adjusted_score_clamped_witness :
    "EUR/USD" ∈ PAIR_LABELS ∧ [sample_item] ≠ [] ∧
    (adjusted_score_of (1/4) "EUR/USD" [sample_item] =
       max 0 (min 1 (weighted_score_of [sample_item] +
         (1/4) * macro_effect_norm "EUR/USD" [sample_item])) ∧
     0 ≤ adjusted_score_of (1/4) "EUR/USD" [sample_item] ∧
     adjusted_score_of (1/4) "EUR/USD" [sample_item] ≤ 1) :=
  ⟨by decide, by simp,
   adjusted_score_clamped (1/4) "EUR/USD" [sample_item] (by decide) (by simp)⟩

/-- C2: the bias label is a pure threshold function of the adjusted score
with inclusive boundaries: `Bullish` exactly when the score is `≥ 0.62`,
`Bearish` exactly when it is `≤ 0.38`, `Neutral` exactly strictly in between;
in particular `0.62 ↦ Bullish`, `0.38 ↦ Bearish`, `0.5 ↦ Neutral`. -/
theorem bias_label_thresholds (s : ℚ) :
    (bias_of s = "Bullish" ↔ 0.62 ≤ s) ∧
    (bias_of s = "Bearish" ↔ s ≤ 0.38) ∧
    (bias_of s = "Neutral" ↔ 0.38 < s ∧ s < 0.62) ∧
    bias_of 0.62 = "Bullish" ∧ bias_of 0.38 = "Bearish" ∧ bias_of 0.5 = "Neutral" := by
  have hb : ∀ t : ℚ, bias_of t =
      if 0.62 ≤ t then "Bullish" else if t ≤ 0.38 then "Bearish" else "Neutral" := by
    intro t
    unfold bias_of bias_color_of
    split_ifs <;> rfl
  have h62 : bias_of (0.62 : ℚ) = "Bullish" := by rw [hb]; norm_num
  have h38 : bias_of (0.38 : ℚ) = "Bearish" := by rw [hb]; norm_num
  have h50 : bias_of (0.5 : ℚ) = "Neutral" := by rw [hb]; norm_num
  refine ⟨?_, ?_, ?_, h62, h38, h50⟩
  · rw [hb]; split_ifs with hA hB
    · exact iff_of_true rfl hA
    · exact iff_of_false (by decide) hA
    · exact iff_of_false (by decide) hA
  · rw [hb]; split_ifs with hA hB
    · exact iff_of_false (by decide) (fun hc => absurd (le_trans hA hc) (by norm_num))
    · exact iff_of_true rfl hB
    · exact iff_of_false (by decide) hB
  · rw [hb]; split_ifs with hA hB
    · exact iff_of_false (by decide) (fun hc => absurd hA (not_le.mpr hc.2))
    · exact iff_of_false (by decide) (fun hc => absurd hB (not_le.mpr hc.1))
    · exact iff_of_true rfl ⟨not_le.mp hB, not_le.mp hA⟩

/-- Helper: looking up a configured pair in the aggregate map yields the
aggregate computed for that pair's matching items. -/
theorem lookup_agg_all (macro_influence : ℚ) (summarizer : Option (String → Option String))
    (ni : List AnnItem) (p : String) (hp : p ∈ PAIR_LABELS) :
    (agg_all macro_influence summarizer ni).lookup p =
      some (aggregate_for macro_influence summarizer p
        (ni.filter (fun n => n.pair == p))) := by
  have hp' : p = "EUR/USD" ∨ p = "GBP/USD" ∨ p = "USD/JPY" ∨ p = "XAU/USD" := by
    simpa [PAIR_LABELS, PAIR_KEYWORDS] using hp
  rcases hp' with h | h | h | h <;> subst h <;> rfl

/-- C3: a configured pair with no matching items receives exactly the neutral
default aggregate (count 0, score 0.5, adjusted 0.5, bias Neutral), and the
aggregate map has an entry for every configured pair. -/
theorem empty_pair_neutral_default (macro_influence : ℚ)
    (summarizer : Option (String → Option String)) (ni : List AnnItem) (p q : String)
    (hp : p ∈ PAIR_LABELS) (hq : q ∈ PAIR_LABELS)
    (hempty : ni.filter (fun n => n.pair == p) = []) :
    (agg_all macro_influence summarizer ni).lookup p = some neutral_default_agg ∧
    neutral_default_agg.count = 0 ∧
    neutral_default_agg.weighted_score = 0.5 ∧
    neutral_default_agg.adjusted_score = 0.5 ∧
    neutral_default_agg.bias = "Neutral" ∧
    ((agg_all macro_influence summarizer ni).lookup q).isSome = true := by
  refine ⟨?_, rfl, rfl, rfl, rfl, ?_⟩
  · rw [lookup_agg_all _ _ _ _ hp, hempty]
    rfl
  · rw [lookup_agg_all _ _ _ _ hq]
    rfl

/-- Witness for C3 at a concrete input. -/
theorem empty_pair_neutral_default_witness :
    "EUR/USD" ∈ PAIR_LABELS ∧ "XAU/USD" ∈ PAIR_LABELS ∧
    ([] : List AnnItem).filter (fun n => n.pair == "EUR/USD") = [] ∧
    ((agg_all (1/4) none []).lookup "EUR/USD" = some neutral_default_agg ∧
     neutral_default_agg.count = 0 ∧
     neutral_default_agg.weighted_score = 0.5 ∧
     neutral_default_agg.adjusted_score = 0.5 ∧
     neutral_default_agg.bias = "Neutral" ∧
     ((agg_all (1/4) none []).lookup "XAU/USD").isSome = true) :=
  ⟨by decide, by decide, rfl,
   empty_pair_neutral_default (1/4) none [] "EUR/USD" "XAU/USD"
     (by decide) (by decide) rfl⟩

/-- C9: the final item weight is the source trust weight (with the default
for unlisted sources) times the recency weight, and is strictly positive for
every source and optional timestamp. -/
theorem item_weight_is_product_and_pos (source : String) (published : Option ℝ)
    (now half_life_hours : ℝ) :
    item_weight source published now half_life_hours =
      ((source_weights_get source : ℚ) : ℝ) *
        recency_weight published now half_life_hours ∧
    0 < item_weight source published now half_life_hours := by
  refine ⟨rfl, mul_pos ?_ ?_⟩
  · have h : (0 : ℚ) < source_weights_get source := by
      unfold source_weights_get
      split_ifs <;> norm_num
    exact_mod_cast h
  · unfold recency_weight
    cases published with
    | none => norm_num
    | some pub => exact Real.exp_pos _

/-- Helper: every event the detector emits carries the clamped phrase tally
of the lowered input text as its signal. -/
theorem detect_signal_eq (text : String) (ev : MacroEvent)
    (h : ev ∈ detect_macro_events_in_text text) :
    ev.signal = clamp_signal (raw_signal_tally (lowerStr text).data) := by
  simp only [detect_macro_events_in_text, List.mem_filterMap] at h
  obtain ⟨pr, hmem, hpr⟩ := h
  by_cases hc : containsSub pr.1.data (lowerStr text).data = true
  · rw [if_pos hc] at hpr
    injection hpr with hev
    rw [← hev]
  · rw [if_neg hc] at hpr
    exact Option.noConfusion hpr

/-- Helper: the clamped signal is in `(0,1]` or in `[-1,0)` — never zero. -/
theorem clamp_signal_range (s : ℚ) :
    (0 < clamp_signal s ∧ clamp_signal s ≤ 1) ∨
    (-1 ≤ clamp_signal s ∧ clamp_signal s < 0) := by
  unfold clamp_signal
  split_ifs with h1 h2
  · exact Or.inl ⟨lt_min one_pos h1, min_le_left _ _⟩
  · exact Or.inr ⟨le_max_left _ _, max_lt (by norm_num) h2⟩
  · exact Or.inl ⟨by norm_num, by norm_num⟩

/-- C10: all macro events emitted for one text share a single signal value;
that value is never zero — it lies in `(0,1]` or `[-1,0)` — and a phrase
tally of exactly zero is replaced by the default `0.25`. -/
theorem macro_signals_uniform_nonzero (text : String) (e₁ e₂ : MacroEvent)
    (h₁ : e₁ ∈ detect_macro_events_in_text text)
    (h₂ : e₂ ∈ detect_macro_events_in_text text) :
    e₁.signal = e₂.signal ∧
    e₁.signal ≠ 0 ∧
    ((0 < e₁.signal ∧ e₁.signal ≤ 1) ∨ (-1 ≤ e₁.signal ∧ e₁.signal < 0)) ∧
    (raw_signal_tally (lowerStr text).data = 0 → e₁.signal = 0.25) := by
  have q₁ := detect_signal_eq text e₁ h₁
  have q₂ := detect_signal_eq text e₂ h₂
  refine ⟨q₁.trans q₂.symm, ?_, ?_, ?_⟩
  · rcases clamp_signal_range (raw_signal_tally (lowerStr text).data) with ⟨ha, _⟩ | ⟨_, hb⟩
    · rw [q₁]; exact ne_of_gt ha
    · rw [q₁]; exact ne_of_lt hb
  · rw [q₁]; exact clamp_signal_range _
  · intro hz
    rw [q₁]
    unfold clamp_signal
    rw [hz]
    norm_num

/-- Witness for C10 at a concrete input. -/
theorem macro_signals_uniform_nonzero_witness :
    ({ event := "cpi", currency := "USD", signal := 0.25 } : MacroEvent) ∈
        detect_macro_events_in_text "cpi" ∧
    raw_signal_tally (lowerStr "cpi").data = 0 ∧
    ({ event := "cpi", currency := "USD", signal := 0.25 } : MacroEvent).signal ≠ 0 ∧
    ({ event := "cpi", currency := "USD", signal := 0.25 } : MacroEvent).signal = 0.25 := by
  have hm : ({ event := "cpi", currency := "USD", signal := 0.25 } : MacroEvent) ∈
      detect_macro_events_in_text "cpi" := by with_unfolding_all decide
  have ht : raw_signal_tally (lowerStr "cpi").data = 0 := by with_unfolding_all decide
  have h := macro_signals_uniform_nonzero "cpi"
    { event := "cpi", currency := "USD", signal := 0.25 }
    { event := "cpi", currency := "USD", signal := 0.25 } hm hm
  exact ⟨hm, ht, h.2.1, h.2.2.2 ht⟩

/-- Helper: the positive scanning loop adds one per phrase present. -/
theorem foldl_pos_tally (l : List String) (c : String → Bool) (a : ℚ) :
    l.foldl (fun s pw => if c pw then s + 1 else s) a = a + (l.countP c : ℚ) := by
  induction l generalizing a with
  | nil => simp
  | cons x xs ih =>
    by_cases h : c x
    · simp only [List.foldl_cons, h, if_true, ih, List.countP_cons]
      push_cast
      ring
    · simp only [List.foldl_cons, h, if_false, ih, List.countP_cons]
      push_cast [h]
      ring

/-- Helper: the negative scanning loop subtracts one per phrase present. -/
theorem foldl_neg_tally (l : List String) (c : String → Bool) (a : ℚ) :
    l.foldl (fun s nw => if c nw then s - 1 else s) a = a - (l.countP c : ℚ) := by
  induction l generalizing a with
  | nil => simp
  | cons x xs ih =>
    by_cases h : c x
    · simp only [List.foldl_cons, h, if_true, ih, List.countP_cons]
      push_cast
      ring
    · simp only [List.foldl_cons, h, if_false, ih, List.countP_cons]
      push_cast [h]
      ring

/-- The phrase tally as the amended claim words it: `+1` per positive phrase
present as a substring (each phrase counted once, however often it occurs)
and `-1` per negative phrase present. -/
def presence_tally (t : List Char) : ℚ :=
  (POSITIVE_SIGNS.countP (fun pw => containsSub pw.data t) : ℚ) -
    (NEGATIVE_SIGNS.countP (fun nw => containsSub nw.data t) : ℚ)

/-- The scanning loops compute exactly the presence tally. -/
theorem raw_tally_is_presence_tally (t : List Char) :
    raw_signal_tally t = presence_tally t := by
  unfold raw_signal_tally presence_tally
  rw [foldl_neg_tally, foldl_pos_tally]
  ring

/-- The original claim's per-occurrence tally: `+1` per occurrence of each
positive phrase and `-1` per occurrence of each negative phrase. -/
def occurrence_tally (t : List Char) : ℚ :=
  ((POSITIVE_SIGNS.map (fun pw => count_occurrences pw.data t)).sum : ℚ) -
    ((NEGATIVE_SIGNS.map (fun nw => count_occurrences nw.data t)).sum : ℚ)

/-- Helper: a `filterMap` whose function is an if-some-else-none is a
filter followed by a map. -/
theorem filterMap_if_eq_filter_map {α β : Type} (g : α → β) (c : α → Bool) (l : List α) :
    l.filterMap (fun a => if c a then some (g a) else none) = (l.filter c).map g := by
  induction l with
  | nil => rfl
  | cons x xs ih =>
    by_cases h : c x
    · simp [List.filterMap_cons, List.filter_cons, h, ih]
    · simp [List.filterMap_cons, List.filter_cons, h, ih]

/-- C4 (amended): the detector emits one event per macro keyword present in
the lowered text, every event carrying the clamp of the per-phrase presence
tally (`+1` per positive phrase present, `-1` per negative phrase present,
each phrase counted once however often it occurs, a zero tally replaced by
`0.25`); a tally of five (e.g. five positive phrases present and no negative
ones) clamps to `1`, not `5`. -/
theorem macro_detector_presence_semantics (text : String) :
    detect_macro_events_in_text text =
      (MACRO_KEYWORDS.filter (fun pr => containsSub pr.1.data (lowerStr text).data)).map
        (fun pr => { event := pr.1, currency := pr.2,
                     signal := clamp_signal (presence_tally (lowerStr text).data) }) ∧
    raw_signal_tally (lowerStr text).data = presence_tally (lowerStr text).data ∧
    clamp_signal 5 = 1 := by
  refine ⟨?_, raw_tally_is_presence_tally _, by unfold clamp_signal; norm_num⟩
  simp only [detect_macro_events_in_text]
  rw [filterMap_if_eq_filter_map
    (fun pr : String × String =>
      ({ event := pr.1, currency := pr.2,
         signal := clamp_signal (raw_signal_tally (lowerStr text).data) } : MacroEvent))
    (fun pr => containsSub pr.1.data (lowerStr text).data) MACRO_KEYWORDS]
  simp only [raw_tally_is_presence_tally]

/-- C4 counterexample: on the text `"cpi rise rise falls fell"` the claim's
per-occurrence sum is `2 - 2 = 0`, so the claim predicts the default signal
`0.25`; the detector counts each phrase once (`1 - 2 = -1`) and emits `-1`. -/
theorem macro_detector_occurrence_counterexample :
    detect_macro_events_in_text "cpi rise rise falls fell" =
      [{ event := "cpi", currency := "USD", signal := -1 }] ∧
    occurrence_tally (lowerStr "cpi rise rise falls fell").data = 0 ∧
    clamp_signal (occurrence_tally (lowerStr "cpi rise rise falls fell").data) = 0.25 ∧
    (-1 : ℚ) ≠ 0.25 := by
  refine ⟨by with_unfolding_all decide, by with_unfolding_all decide,
    by with_unfolding_all decide, by norm_num⟩

/-- C5: the recency weight is the fixed constant `0.2` for an absent
timestamp; otherwise it is exponential decay in the age: `1` at age zero,
within `1/1000` of `0.5` at an age of one half-life, and strictly decreasing
as the item gets older. -/
theorem recency_weight_decay (now half_life_hours p q : ℝ)
    (hhl : 0 < half_life_hours) (hq : q < p) (hp : p ≤ now) :
    recency_weight none now half_life_hours = 0.2 ∧
    recency_weight (some now) now half_life_hours = 1 ∧
    abs (recency_weight (some (now - half_life_hours)) now half_life_hours - 0.5) < 1/1000 ∧
    recency_weight (some q) now half_life_hours <
      recency_weight (some p) now half_life_hours := by
  refine ⟨rfl, ?_, ?_, ?_⟩
  · show Real.exp ((-(1 / half_life_hours) * 0.693147) * max (now - now) 0) = 1
    simp
  · show abs (Real.exp ((-(1 / half_life_hours) * 0.693147) *
        max (now - (now - half_life_hours)) 0) - 0.5) < 1/1000
    have hne : half_life_hours ≠ 0 := ne_of_gt hhl
    have hage : max (now - (now - half_life_hours)) 0 = half_life_hours := by
      rw [sub_sub_cancel]
      exact max_eq_left hhl.le
    rw [hage]
    have harg : (-(1 / half_life_hours) * 0.693147) * half_life_hours = -0.693147 := by
      field_simp
    rw [harg]
    have hlow : (0.5 : ℝ) < Real.exp (-0.693147) := by
      have h1 : (0.693147 : ℝ) < Real.log 2 := by
        have h := Real.log_two_gt_d9
        norm_num at h ⊢
        linarith
      have h2 : Real.exp (-Real.log 2) < Real.exp (-0.693147) :=
        Real.exp_lt_exp.mpr (by linarith)
      have h3 : Real.exp (-Real.log 2) = 1/2 := by
        rw [Real.exp_neg, Real.exp_log] <;> norm_num
      rw [h3] at h2
      norm_num
      linarith
    have hhigh : Real.exp (-0.693147) ≤ 5001/10000 := by
      have hS : (10000/5001 : ℝ) ≤
          ∑ i ∈ Finset.range 6, (0.693147 : ℝ) ^ i / (Nat.factorial i) := by
        simp [Finset.sum_range_succ, Nat.factorial]
        norm_num
      have hexp : (10000/5001 : ℝ) ≤ Real.exp 0.693147 :=
        le_trans hS (Real.sum_le_exp_of_nonneg (by norm_num) 6)
      rw [Real.exp_neg]
      calc (Real.exp 0.693147)⁻¹ ≤ ((10000 : ℝ)/5001)⁻¹ :=
            inv_anti₀ (by norm_num) hexp
        _ = 5001/10000 := by norm_num
    rw [abs_sub_lt_iff]
    constructor <;> [linarith; linarith]
  · show Real.exp ((-(1 / half_life_hours) * 0.693147) * max (now - q) 0) <
      Real.exp ((-(1 / half_life_hours) * 0.693147) * max (now - p) 0)
    have hq0 : max (now - q) 0 = now - q := max_eq_left (by linarith)
    have hp0 : max (now - p) 0 = now - p := max_eq_left (by linarith)
    rw [hq0, hp0]
    have hlam : (-(1 / half_life_hours) * 0.693147) < 0 := by
      have hpos : (0 : ℝ) < 1 / half_life_hours := by positivity
      nlinarith
    exact Real.exp_lt_exp.mpr (mul_lt_mul_of_neg_left (by linarith) hlam)

/-- Witness for C5 at a concrete input. -/
theorem recency_weight_decay_witness :
    (0 : ℝ) < 72 ∧ (20 : ℝ) < 50 ∧ (50 : ℝ) ≤ 100 ∧
    (recency_weight none 100 72 = 0.2 ∧
     recency_weight (some 100) 100 72 = 1 ∧
     abs (recency_weight (some (100 - 72)) 100 72 - 0.5) < 1/1000 ∧
     recency_weight (some 20) 100 72 < recency_weight (some 50) 100 72) :=
  ⟨by norm_num, by norm_num, by norm_num,
   recency_weight_decay 100 72 50 20 (by norm_num) (by norm_num) (by norm_num)⟩

/-- C6 (amended): with an empty fetched item list the cycle halts at the
emptiness guard of lines 177-179, reporting the empty-result condition and
producing no aggregates at all; the aggregation stage itself, applied to an
empty item list, would produce the neutral default for every configured
pair. -/
theorem empty_fetch_halts (process : List AnnItem → List AnnItem) (macro_influence : ℚ)
    (summarizer : Option (String → Option String)) :
    engine_cycle process macro_influence summarizer [] = none ∧
    agg_all macro_influence summarizer [] =
      PAIR_LABELS.map (fun p => (p, neutral_default_agg)) :=
  ⟨rfl, rfl⟩

/-- C6 counterexample: with zero fetched items the engine yields no aggregate
map at all — not the full neutral-default set the claim states. -/
theorem empty_fetch_counterexample :
    engine_cycle (fun l => l) (1/4) none [] = none ∧
    engine_cycle (fun l => l) (1/4) none [] ≠
      some (PAIR_LABELS.map (fun p => (p, neutral_default_agg))) := by
  refine ⟨rfl, ?_⟩
  intro h
  exact Option.noConfusion h

/-- C7 (amended): for a pair with matching items the explanation is the
summarizer applied to the concatenation of the titles of the top SIX ranked
items — one more than the stored five-item top-evidence list — and the top
item's title is the deterministic fallback when the summarizer is absent or
fails. -/
theorem explanation_from_summarizer (macro_influence : ℚ) (p : String)
    (items : List AnnItem) (f : String → Option String) (hne : items ≠ []) :
    (aggregate_for macro_influence none p items).explanation =
      (sort_desc (fun x => x.weight * x.sent_score) items).headI.title ∧
    (aggregate_for macro_influence (some f) p items).explanation =
      (f (String.intercalate " "
           (((sort_desc (fun x => x.weight * x.sent_score) items).take 6).map
             (fun t => t.title)))).getD
        (sort_desc (fun x => x.weight * x.sent_score) items).headI.title ∧
    (aggregate_for macro_influence (some f) p items).top_titles =
      (sort_desc (fun x => x.weight * x.sent_score) items).take 5 := by
  refine ⟨?_, ?_, ?_⟩
  · simp only [aggregate_for, if_neg hne]
  · rcases hfc : f (String.intercalate " "
        (((sort_desc (fun x => x.weight * x.sent_score) items).take 6).map
          (fun t => t.title))) with _ | s
    · simp only [aggregate_for, if_neg hne, hfc, Option.getD_none]
    · simp only [aggregate_for, if_neg hne, hfc, Option.getD_some]
  · simp only [aggregate_for, if_neg hne]

/-- Witness for C7 (amended) at a concrete input. -/
theorem explanation_from_summarizer_witness :
    [sample_item] ≠ [] ∧
    ((aggregate_for (1/4) none "EUR/USD" [sample_item]).explanation =
       (sort_desc (fun x => x.weight * x.sent_score) [sample_item]).headI.title ∧
     (aggregate_for (1/4) (some (fun _ => none)) "EUR/USD" [sample_item]).explanation =
       ((fun (_ : String) => (none : Option String)) (String.intercalate " "
            (((sort_desc (fun x => x.weight * x.sent_score) [sample_item]).take 6).map
              (fun t => t.title)))).getD
         (sort_desc (fun x => x.weight * x.sent_score) [sample_item]).headI.title ∧
     (aggregate_for (1/4) (some (fun _ => none)) "EUR/USD" [sample_item]).top_titles =
       (sort_desc (fun x => x.weight * x.sent_score) [sample_item]).take 5) :=
  ⟨by simp,
   explanation_from_summarizer (1/4) "EUR/USD" [sample_item] (fun _ => none) (by simp)⟩

/-- Item constructor for the concrete evidence lists below. -/
def titled_item (title : String) (weight : ℚ) : AnnItem :=
  { source := "Reuters", title := title, summary := "", link := "",
    published := none, text := "", pair := "EUR/USD", macro_events := [],
    sent_label := "", sent_score := 1, sent_value := 0.5, weight := weight }

/-- Six items with strictly decreasing ranking keys. -/
def six_items : List AnnItem :=
  [titled_item "t1" 6, titled_item "t2" 5, titled_item "t3" 4,
   titled_item "t4" 3, titled_item "t5" 2, titled_item "t6" 1]

/-- C7 counterexample: with six matching items and a summarizer returning its
input verbatim, the explanation contains the sixth title, hence the
summarizer input is not the concatenation of the five top-evidence titles. -/
theorem explanation_top6_counterexample :
    (aggregate_for 0 (some (fun s => some s)) "EUR/USD" six_items).explanation =
      "t1 t2 t3 t4 t5 t6" ∧
    String.intercalate " "
        ((aggregate_for 0 (some (fun s => some s)) "EUR/USD" six_items).top_titles.map
          (fun t => t.title)) = "t1 t2 t3 t4 t5" ∧
    ("t1 t2 t3 t4 t5 t6" : String) ≠ "t1 t2 t3 t4 t5" := by
  refine ⟨by with_unfolding_all decide, by with_unfolding_all decide, by decide⟩

/-- Helper: the element of a `zipWith` at an in-bounds index. -/
theorem getElem?_zipWith_of_lt {α β γ : Type} (f : α → β → γ) (as : List α) (bs : List β)
    (i : ℕ) (h₁ : i < as.length) (h₂ : i < bs.length) :
    (List.zipWith f as bs)[i]? = some (f as[i] bs[i]) := by
  rw [List.getElem?_zipWith, List.getElem?_eq_getElem h₁, List.getElem?_eq_getElem h₂]

/-- C8 (amended): the sentiment zip step performs no length check — it pairs
results with items by stable index over the first
`min |news_items| |sent_results|` positions and leaves every later item
untouched, raising no integrity fault on misaligned lengths. -/
theorem zip_step_silent_prefix (ni : List AnnItem) (rs : List SentResult)
    (i j : ℕ) (hi₁ : i < ni.length) (hi₂ : i < rs.length) (hj : rs.length ≤ j) :
    (sentiment_zip_step ni rs).length = ni.length ∧
    (sentiment_zip_step ni rs)[i]? = some (annotate_sentiment ni[i] rs[i]) ∧
    (sentiment_zip_step ni rs)[j]? = ni[j]? := by
  have hzlen : (List.zipWith annotate_sentiment ni rs).length = min ni.length rs.length :=
    List.length_zipWith ..
  refine ⟨?_, ?_, ?_⟩
  · simp only [sentiment_zip_step, List.length_append, hzlen, List.length_drop]
    omega
  · unfold sentiment_zip_step
    rw [List.getElem?_append,
      if_pos (by omega : i < (List.zipWith annotate_sentiment ni rs).length)]
    exact getElem?_zipWith_of_lt annotate_sentiment ni rs i hi₁ hi₂
  · unfold sentiment_zip_step
    rw [List.getElem?_append_right (by omega), List.getElem?_drop]
    by_cases hcase : rs.length ≤ ni.length
    · have hidx : rs.length + (j - (List.zipWith annotate_sentiment ni rs).length) = j := by
        omega
      rw [hidx]
    · rw [List.getElem?_eq_none (by omega), List.getElem?_eq_none (by omega)]

/-- Witness for C8 (amended) at a concrete input. -/
theorem zip_step_silent_prefix_witness :
    (0 : ℕ) < [titled_item "a" 1, titled_item "b" 1].length ∧
    (0 : ℕ) < [({ label := "positive", score := 0.9 } : SentResult)].length ∧
    [({ label := "positive", score := 0.9 } : SentResult)].length ≤ 1 ∧
    ((sentiment_zip_step [titled_item "a" 1, titled_item "b" 1]
        [{ label := "positive", score := 0.9 }]).length =
      [titled_item "a" 1, titled_item "b" 1].length ∧
     (sentiment_zip_step [titled_item "a" 1, titled_item "b" 1]
        [{ label := "positive", score := 0.9 }])[0]? =
       some (annotate_sentiment ([titled_item "a" 1, titled_item "b" 1])[0]
         ([({ label := "positive", score := 0.9 } : SentResult)])[0]) ∧
     (sentiment_zip_step [titled_item "a" 1, titled_item "b" 1]
        [{ label := "positive", score := 0.9 }])[1]? =
       ([titled_item "a" 1, titled_item "b" 1])[1]?) :=
  ⟨by decide, by decide, by decide,
   zip_step_silent_prefix [titled_item "a" 1, titled_item "b" 1]
     [{ label := "positive", score := 0.9 }] 0 1
     (by decide) (by decide) (by decide)⟩

/-- C8 counterexample: with two items and one sentiment result the zip step
silently annotates the one-item prefix and passes the second item through
unchanged — no integrity fault or length guard exists. -/
theorem zip_step_counterexample :
    [titled_item "a" 1, titled_item "b" 1].length ≠
      [({ label := "positive", score := 0.9 } : SentResult)].length ∧
    sentiment_zip_step [titled_item "a" 1, titled_item "b" 1]
        [{ label := "positive", score := 0.9 }] =
      [annotate_sentiment (titled_item "a" 1) { label := "positive", score := 0.9 },
       titled_item "b" 1] :=
  ⟨by decide, rfl⟩

end ForexDash
